import Mathlib

/-!
Verification development for the yts-movies scraping library.

The Rust sources are shallowly embedded below. HTML parsing and CSS
selection (the scraper crate) as well as HTTP transport (reqwest) are
external collaborators; we embed the data that the fixed CSS selectors of
the source deliver to the extraction code (per-row text tokens, optional
href and src attributes, per-block text node lists) and translate the
extraction, enum-mapping, pagination and URL-building logic faithfully
from src/core/response.rs, src/core/model.rs, src/client/parameter.rs and
src/client/default.rs. Rust panics (byte-slice out of range, inverted
slice ranges, Vec index out of bounds, explicit panic in the genre
mapping) are modelled by an explicit third outcome besides success and
typed error. Machine integers (u32, usize) are modelled as Nat; the only
place where release-mode wrap-around of usize subtraction is observable
(info.len() - 2 for a one-token row) is modelled by the branch it leads
to (a failed lookup, hence the typed name error). The f32 rating is
modelled as a rational; every numeric literal the embedded parser can
produce from the two-byte rating slices compared in the theorems below is
exactly representable in f32, so equality statements at those values
transfer. Rust str trimming and whitespace tests are modelled with
Char.isWhitespace, which agrees with the Rust predicate on ASCII.
-/

namespace YtsMovies

/-- The crate error type, from src/lib.rs (enum Error). Transport-layer
variants (ReqwestError, ToStrError) and the selector-compilation variant
(unreachable for the fixed selector literals) are omitted because no
embedded code path produces them. Note there is no variant for a missing
detail link or missing image. -/
inductive Error where
  | MovieRatingError
  | MovieYearError
  | MovieNameError
  | ParseFloatError
  | ParseIntError
  | ParseError (url : String)
deriving DecidableEq

/-- Result of running embedded Rust code: a value, a typed error
(Rust Err), or a process-aborting Rust panic with its message. -/
inductive Outcome (α : Type) where
  | ok (a : α)
  | err (e : Error)
  | fatal (msg : String)
deriving DecidableEq

/-- Sequencing that propagates both typed errors and panics, modelling
the ? operator together with panic propagation. -/
def Outcome.bind {α β : Type} : Outcome α → (α → Outcome β) → Outcome β
  | .ok a, f => f a
  | .err e, _ => .err e
  | .fatal m, _ => .fatal m

/-- True exactly on successful outcomes. -/
def Outcome.isOk {α : Type} : Outcome α → Bool
  | .ok _ => true
  | _ => false

/-- True exactly on panicking outcomes. -/
def Outcome.isFatal {α : Type} : Outcome α → Bool
  | .fatal _ => true
  | _ => false

/-- Rust str::trim: both ends stripped of whitespace. Lean
Char.isWhitespace covers the ASCII whitespace characters, on which it
agrees with the Rust predicate. -/
def strTrim (s : String) : String :=
  String.mk (((s.data.dropWhile Char.isWhitespace).reverse.dropWhile Char.isWhitespace).reverse)

/-- Substring containment, modelling Rust str::contains with a string
pattern. -/
def strContains (s pat : String) : Bool :=
  (List.range (s.data.length + 1)).any fun i => List.isPrefixOf pat.data (s.data.drop i)

/-- Value of a list of decimal digit characters. -/
def natOfDigits (cs : List Char) : Nat :=
  cs.foldl (fun acc c => acc * 10 + (c.toNat - 48)) 0

/-- Digits-only part of Rust u32::from_str: all characters must be
decimal digits, at least one, and the value must fit in u32. -/
def parseU32core (cs : List Char) : Option Nat :=
  if cs.isEmpty then none
  else if cs.all Char.isDigit then
    let n := natOfDigits cs
    if n < 4294967296 then some n else none
  else none

/-- Rust u32::from_str: an optional leading plus sign followed by
decimal digits; no other characters are accepted. -/
def parseU32 (s : String) : Option Nat :=
  match s.data with
  | [] => none
  | c :: cs => if c == Char.ofNat 43 then parseU32core cs else parseU32core (c :: cs)

/-- Exact rational value of the decimal literal intPart.frac. -/
def decimalValue (intPart frac : List Char) : ℚ :=
  mkRat (Int.ofNat (natOfDigits intPart * 10 ^ frac.length + natOfDigits frac)) (10 ^ frac.length)

/-- Unsigned part of Rust f32::from_str restricted to plain decimal
literals: digits, optionally a decimal point and further digits, with at
least one digit overall. The inf, nan and exponent forms of the Rust
grammar need at least three characters and are unreachable from the
two-byte slices this code path feeds in, so they are not modelled. -/
def parseF32core (cs : List Char) : Option ℚ :=
  let intPart := cs.takeWhile Char.isDigit
  let rest := cs.dropWhile Char.isDigit
  match rest with
  | [] => if intPart.isEmpty then none else some (decimalValue intPart [])
  | c :: frac =>
    if c == Char.ofNat 46 && frac.all Char.isDigit && !(intPart.isEmpty && frac.isEmpty) then
      some (decimalValue intPart frac)
    else none

/-- Rust f32::from_str on the two-byte rating slice: optional sign, then
a plain decimal literal. -/
def parseF32 (s : String) : Option ℚ :=
  match s.data with
  | [] => none
  | c :: cs =>
    if c == Char.ofNat 43 then parseF32core cs
    else if c == Char.ofNat 45 then Option.map Neg.neg (parseF32core cs)
    else parseF32core (c :: cs)

/-- Rust byte-slice expression s[0..2] (used as rating[..2] in
Response::create): panics when the string is shorter than two bytes or
when byte offset 2 falls inside a multi-byte character; otherwise yields
the first two UTF-8 bytes as a string. Expressed over characters and
their UTF-8 widths, which determines the byte boundaries exactly. -/
def sliceTwoBytes (s : String) : Outcome String :=
  match s.data with
  | [] => .fatal "byte index 2 is out of bounds"
  | c :: cs =>
    if c.utf8Size = 2 then .ok (String.mk [c])
    else if c.utf8Size = 1 then
      match cs with
      | [] => .fatal "byte index 2 is out of bounds"
      | d :: _ =>
        if d.utf8Size = 1 then .ok (String.mk [c, d])
        else .fatal "byte index 2 is not a char boundary"
    else .fatal "byte index 2 is not a char boundary"

/-- Movie genres, from src/core/model.rs (enum Genre). -/
inductive Genre where
  | All | Action | Adventure | Animation | Biography | Comedy | Crime
  | Documentary | Drama | Family | Fantasy | FilmNoir | GameShow | History
  | Horror | Music | Musical | Mystery | News | RealityTV | Romance | SciFi
  | Sport | TalkShow | Thriller | War | Western
deriving DecidableEq

/-- The lowercase URL token of a genre, from impl From for str in
src/core/model.rs. -/
def Genre.toStr : Genre → String
  | .All => "all"
  | .Action => "action"
  | .Adventure => "adventure"
  | .Animation => "animation"
  | .Biography => "biography"
  | .Comedy => "comedy"
  | .Crime => "crime"
  | .Documentary => "documentary"
  | .Drama => "drama"
  | .Family => "family"
  | .Fantasy => "fantasy"
  | .FilmNoir => "film-noir"
  | .GameShow => "game-show"
  | .History => "history"
  | .Horror => "horror"
  | .Music => "music"
  | .Musical => "musical"
  | .Mystery => "mystery"
  | .News => "news"
  | .RealityTV => "reality-tv"
  | .Romance => "romance"
  | .SciFi => "sci-fi"
  | .Sport => "sport"
  | .TalkShow => "talk-show"
  | .Thriller => "thriller"
  | .War => "war"
  | .Western => "western"

/-- The page-markup label table of impl From for Genre in
src/core/model.rs, with none for the wildcard arm that the source turns
into a panic (the explicit call there reads: Invalid genre). -/
def Genre.fromStr? : String → Option Genre
  | "Action" => some .Action
  | "Adventure" => some .Adventure
  | "Animation" => some .Animation
  | "Biography" => some .Biography
  | "Comedy" => some .Comedy
  | "Crime" => some .Crime
  | "Documentary" => some .Documentary
  | "Drama" => some .Drama
  | "Family" => some .Family
  | "Fantasy" => some .Fantasy
  | "Film-Noir" => some .FilmNoir
  | "Game-Show" => some .GameShow
  | "History" => some .History
  | "Horror" => some .Horror
  | "Music" => some .Music
  | "Musical" => some .Musical
  | "Mystery" => some .Mystery
  | "News" => some .News
  | "Reality-TV" => some .RealityTV
  | "Romance" => some .Romance
  | "Sci-Fi" => some .SciFi
  | "Sport" => some .Sport
  | "Talk-Show" => some .TalkShow
  | "Thriller" => some .Thriller
  | "War" => some .War
  | "Western" => some .Western
  | _ => none

/-- Video quality, from src/client/parameter.rs (enum Quality). -/
inductive Quality where
  | All | P720 | P1080 | P2160 | ThreeD
deriving DecidableEq

/-- The URL token of a quality, from impl From for str in
src/client/parameter.rs. -/
def Quality.toStr : Quality → String
  | .All => "all"
  | .P720 => "720p"
  | .P1080 => "1080p"
  | .P2160 => "2160p"
  | .ThreeD => "3D"

/-- impl From str for Quality in src/client/parameter.rs: substring
containment on 720, 1080, 2160; everything else falls back to ThreeD. -/
def Quality.fromStr (value : String) : Quality :=
  if strContains value "720" then .P720
  else if strContains value "1080" then .P1080
  else if strContains value "2160" then .P2160
  else .ThreeD

/-- Minimum-rating filter, from src/client/parameter.rs (enum Rating). -/
inductive Rating where
  | All | One | Two | Three | Four | Five | Six | Seven | Eight | Nine
deriving DecidableEq

/-- The URL token of a rating, from impl From for str in
src/client/parameter.rs. -/
def Rating.toStr : Rating → String
  | .All => "0"
  | .One => "1"
  | .Two => "2"
  | .Three => "3"
  | .Four => "4"
  | .Five => "5"
  | .Six => "6"
  | .Seven => "7"
  | .Eight => "8"
  | .Nine => "9"

/-- Year filter, from src/client/parameter.rs (enum Year). -/
inductive Year where
  | All
  | Equal (year : Nat)
  | Range2000to2009
  | Range1990to1999
  | Range1980to1989
  | Range1970to1979
  | Range1950to1969
  | Range1900to1949
deriving DecidableEq

/-- The URL token of a year filter, from impl From Year for String in
src/client/parameter.rs. -/
def Year.toStr : Year → String
  | .All => "0"
  | .Equal year => toString year
  | .Range2000to2009 => "2000-2009"
  | .Range1990to1999 => "1990-1999"
  | .Range1980to1989 => "1980-1989"
  | .Range1970to1979 => "1970-1979"
  | .Range1950to1969 => "1950-1969"
  | .Range1900to1949 => "1900-1949"

/-- Sort order, from src/client/parameter.rs (enum OrderBy). -/
inductive OrderBy where
  | Latest | Oldest | Featured | Year | Rating | Likes | Alphabetical
deriving DecidableEq

/-- The URL token of a sort order, from impl From for str in
src/client/parameter.rs. -/
def OrderBy.toStr : OrderBy → String
  | .Latest => "latest"
  | .Oldest => "oldest"
  | .Featured => "featured"
  | .Year => "year"
  | .Rating => "rating"
  | .Likes => "likes"
  | .Alphabetical => "alphabetical"

/-- Finalized filter values, from src/client/parameter.rs (struct
Filter). -/
structure Filter where
  quality : Quality
  genre : Genre
  rating : Rating
  year : Year
  order_by : OrderBy
  page : Nat
deriving DecidableEq

/-- Filter::quality_to_str from src/client/parameter.rs. -/
def Filter.quality_to_str (f : Filter) : String := f.quality.toStr

/-- Filter::genre_to_str from src/client/parameter.rs. -/
def Filter.genre_to_str (f : Filter) : String := f.genre.toStr

/-- Filter::rating_to_str from src/client/parameter.rs. -/
def Filter.rating_to_str (f : Filter) : String := f.rating.toStr

/-- Filter::year_to_str from src/client/parameter.rs. -/
def Filter.year_to_str (f : Filter) : String := f.year.toStr

/-- Filter::order_by_to_str from src/client/parameter.rs. -/
def Filter.order_by_to_str (f : Filter) : String := f.order_by.toStr

/-- The builder wrapper, from src/client/parameter.rs (struct
Filters). -/
structure Filters where
  f : Filter
deriving DecidableEq

/-- impl Default for Filters in src/client/parameter.rs. -/
def Filters.default : Filters :=
  ⟨{ quality := .All, genre := .All, rating := .All, year := .All, order_by := .Latest, page := 1 }⟩

/-- Builder setter Filters::quality. -/
def Filters.quality (fs : Filters) (quality : Quality) : Filters :=
  ⟨{ fs.f with quality := quality }⟩

/-- Builder setter Filters::genre. -/
def Filters.genre (fs : Filters) (genre : Genre) : Filters :=
  ⟨{ fs.f with genre := genre }⟩

/-- Builder setter Filters::rating. -/
def Filters.rating (fs : Filters) (rating : Rating) : Filters :=
  ⟨{ fs.f with rating := rating }⟩

/-- Builder setter Filters::year. -/
def Filters.year (fs : Filters) (year : Year) : Filters :=
  ⟨{ fs.f with year := year }⟩

/-- Builder setter Filters::order_by. -/
def Filters.order_by (fs : Filters) (order_by : OrderBy) : Filters :=
  ⟨{ fs.f with order_by := order_by }⟩

/-- Builder setter Filters::page. -/
def Filters.page (fs : Filters) (page : Nat) : Filters :=
  ⟨{ fs.f with page := page }⟩

/-- Filters::build from src/client/parameter.rs. -/
def Filters.build (fs : Filters) : Filter := fs.f

/-- A parsed movie, from src/core/model.rs (struct Movie); the rating is
the f32 value modelled as a rational. -/
structure Movie where
  name : String
  year : Nat
  rating : ℚ
  genre : List Genre
  image : String
  link : String
deriving DecidableEq

/-- Pagination data, from src/core/response.rs (struct Page). -/
structure Page where
  current : Nat
  of : Nat
  total : Nat
deriving DecidableEq

/-- Page::create from src/core/response.rs: total pages assuming twenty
movies per page. -/
def Page.create (current total : Nat) : Page :=
  { current := current
    of := if total > 20 then total / 20 + (if total % 20 > 0 then 1 else 0) else 1
    total := total }

/-- A search listing response, from src/core/response.rs (struct
Response). -/
structure Response where
  page : Page
  movies : List Movie
deriving DecidableEq

/-- What the fixed CSS selectors deliver for one result row
(div.browse-movie-wrap) in Response::create: the href of the first
a.browse-movie-link if any, the src of the first img if any, and the text
nodes of the row in document order. -/
structure Row where
  href : Option String
  imgSrc : Option String
  texts : List String
deriving DecidableEq

/-- What the fixed CSS selectors deliver for a whole search-results page:
the first text node of the bold total-count element if present, and the
result rows if the results container (section div.row) is present. -/
structure SearchDoc where
  totalText : Option String
  rows : Option (List Row)
deriving DecidableEq

/-- The token list of a row: its text nodes with whitespace-only nodes
and the literal View Details label removed, from Response::create. -/
def rowInfo (r : Row) : List String :=
  r.texts.filter fun t => !(strTrim t).data.isEmpty && !(t == "View Details")

/-- Rating extraction of Response::create: first token, its first two
bytes, parsed as f32. A missing token is the typed rating error, a
failing parse the typed float error; the byte slice can panic. -/
def ratingOf (info : List String) : Outcome ℚ :=
  match info.head? with
  | none => .err .MovieRatingError
  | some first =>
    Outcome.bind (sliceTwoBytes first) fun sliced =>
      match parseF32 sliced with
      | none => .err .ParseFloatError
      | some q => .ok q

/-- Year extraction of Response::create: last token parsed as u32. -/
def yearOf (info : List String) : Outcome Nat :=
  match info.getLast? with
  | none => .err .MovieYearError
  | some t =>
    match parseU32 t with
    | none => .err .ParseIntError
    | some n => .ok n

/-- Name extraction of Response::create: the second-to-last token. For a
single-token row the release-mode wrap-around of info.len() - 2 makes the
lookup miss, giving the typed name error. -/
def nameOf (info : List String) : Outcome String :=
  if h : 2 ≤ info.length then .ok (info.get ⟨info.length - 2, by omega⟩)
  else .err .MovieNameError

/-- The tokens strictly between the first and the last two: the genre
slice info[1 .. info.len() - 2] of Response::create for rows of at least
three tokens. -/
def genreRegion (info : List String) : List String :=
  (info.drop 1).take (info.length - 3)

/-- The genre loop of Response::create: each token goes through the
closed genre table; an unknown label hits the panic arm of the Rust From
conversion. -/
def genresOf : List String → Outcome (List Genre)
  | [] => .ok []
  | t :: ts =>
    match Genre.fromStr? t with
    | none => .fatal "Invalid genre"
    | some g =>
      match genresOf ts with
      | .ok gs => .ok (g :: gs)
      | .err e => .err e
      | .fatal m => .fatal m

/-- The genre slice of Response::create including its failure mode: for a
two-token row the Rust range 1 .. info.len() - 2 is inverted and panics
before any conversion runs. -/
def genresStep (info : List String) : Outcome (List Genre) :=
  if info.length = 2 then .fatal "slice index starts at 1 but ends at 0"
  else genresOf (genreRegion info)

/-- The per-row body of Response::create over the already-collected token
list: rating, year, name, then genres, in the evaluation order of the
source; link and image fall back to the empty attribute value. -/
def movieFromInfo (host : String) (r : Row) (info : List String) : Outcome Movie :=
  Outcome.bind (ratingOf info) fun rating =>
  Outcome.bind (yearOf info) fun year =>
  Outcome.bind (nameOf info) fun name =>
  Outcome.bind (genresStep info) fun gs =>
  .ok { name := name, year := year, rating := rating, genre := gs,
        image := host ++ r.imgSrc.getD "", link := host ++ r.href.getD "" }

/-- One result row of Response::create. -/
def parseRow (host : String) (r : Row) : Outcome Movie :=
  movieFromInfo host r (rowInfo r)

/-- The row loop of Response::create: rows in document order; the first
typed error or panic aborts everything. -/
def parseRows (host : String) : List Row → Outcome (List Movie)
  | [] => .ok []
  | r :: rs =>
    match parseRow host r with
    | .ok m =>
      match parseRows host rs with
      | .ok ms => .ok (m :: ms)
      | .err e => .err e
      | .fatal msg => .fatal msg
    | .err e => .err e
    | .fatal msg => .fatal msg

/-- Response::create from src/core/response.rs: the total count defaults
to zero when absent or unparsable, a missing results container yields an
empty movie list, and each row is parsed strictly. -/
def Response.create (host : String) (doc : SearchDoc) (page : Nat) : Outcome Response :=
  match doc.rows with
  | none => .ok { page := Page.create page ((doc.totalText.bind parseU32).getD 0), movies := [] }
  | some rs =>
    match parseRows host rs with
    | .ok ms => .ok { page := Page.create page ((doc.totalText.bind parseU32).getD 0), movies := ms }
    | .err e => .err e
    | .fatal msg => .fatal msg

/-- A torrent row, from src/core/response.rs (struct Torrent). -/
structure Torrent where
  quality : Quality
  size : String
  language : String
  runtime : String
  peers_seeds : String
  link : String
deriving DecidableEq

/-- Torrent::new from src/core/response.rs: the quality label goes
through the permissive Quality conversion, the rest is copied. -/
def Torrent.new (quality size language runtime peers_seeds : String) (link : String) : Torrent :=
  { quality := Quality.fromStr quality, size := size, language := language,
    runtime := runtime, peers_seeds := peers_seeds, link := link }

/-- Torrent::skip_useless_str from src/core/response.rs: true on tokens
worth keeping. -/
def skip_useless_str (value : String) : Bool :=
  !value.data.isEmpty && !(value == "P/S") && !(value == "Subtitles") && !(value == "NR")
    && !strContains value "fps"

/-- What the fixed CSS selectors deliver inside div#movie-tech-specs:
per span.tech-quality the raw text nodes, and per div.tech-spec-info the
raw text nodes, both in document order. -/
structure TechSpecs where
  qualities : List (List String)
  data : List (List String)
deriving DecidableEq

/-- What the fixed CSS selectors deliver for a detail page: the
tech-specs section if present, and, if the movie-info paragraph is
present, the href of each anchor inside it in document order. -/
structure TorrentDoc where
  techSpecs : Option TechSpecs
  movieInfoAnchors : Option (List (Option String))
deriving DecidableEq

/-- The trimmed and filtered info blocks used by Torrent::create. -/
def filteredData (ts : TechSpecs) : List (List String) :=
  ts.data.map fun l => (l.map strTrim).filter skip_useless_str

/-- The anchor loop of Torrent::create: anchor i is zipped by position
with info block i and quality label i; a missing block, label, or token
at the fixed offsets 0, 2, 3, 4 is a Rust index-out-of-bounds panic. -/
def torrentLoop (host : String) (data quals : List (List String)) :
    List (Option String) → Nat → Outcome (List Torrent)
  | [], _ => .ok []
  | a :: rest, i =>
    match data[i]? with
    | none => .fatal "index out of bounds"
    | some d =>
      match quals[i]? with
      | none => .fatal "index out of bounds"
      | some q =>
        match q[0]?, d[0]?, d[2]?, d[3]?, d[4]? with
        | some q0, some d0, some d2, some d3, some d4 =>
          match torrentLoop host data quals rest (i + 1) with
          | .ok ts => .ok (Torrent.new q0 d0 d2 d3 d4 (host ++ a.getD "") :: ts)
          | .err e => .err e
          | .fatal m => .fatal m
        | _, _, _, _, _ => .fatal "index out of bounds"

/-- Torrent::create from src/core/response.rs: no tech-specs section or
no movie-info paragraph yields an empty list; otherwise the anchors drive
the positional zip. -/
def Torrent.create (host : String) (doc : TorrentDoc) : Outcome (List Torrent) :=
  match doc.techSpecs with
  | none => .ok []
  | some ts =>
    match doc.movieInfoAnchors with
    | none => .ok []
    | some anchors => torrentLoop host (filteredData ts) ts.qualities anchors 0

/-- UTF-8 bytes of one character, by the standard encoding. -/
def utf8Bytes (c : Char) : List Nat :=
  let n := c.toNat
  if n < 128 then [n]
  else if n < 2048 then [192 + n / 64, 128 + n % 64]
  else if n < 65536 then [224 + n / 4096, 128 + (n / 64) % 64, 128 + n % 64]
  else [240 + n / 262144, 128 + (n / 4096) % 64, 128 + (n / 64) % 64, 128 + n % 64]

/-- Bytes the form-urlencoded serializer leaves unescaped: ASCII
alphanumerics and asterisk, hyphen, period, underscore. -/
def isFormSafeByte (b : Nat) : Bool :=
  (48 ≤ b && b ≤ 57) || (65 ≤ b && b ≤ 90) || (97 ≤ b && b ≤ 122)
    || b = 42 || b = 45 || b = 46 || b = 95

/-- Uppercase hexadecimal digit. -/
def hexDigit (n : Nat) : Char :=
  if n < 10 then Char.ofNat (48 + n) else Char.ofNat (55 + n)

/-- One byte under the form-urlencoded serializer: space becomes a plus
sign, safe bytes pass through, everything else is percent-escaped with
uppercase hexadecimal. -/
def encodeByte (b : Nat) : String :=
  if b = 32 then "+"
  else if isFormSafeByte b then String.mk [Char.ofNat b]
  else String.mk [Char.ofNat 37, hexDigit (b / 16), hexDigit (b % 16)]

/-- The application/x-www-form-urlencoded value encoding used by the url
crate serializer behind Url::query_pairs_mut, applied byte-wise to the
UTF-8 encoding of the value. -/
def formUrlencode (s : String) : String :=
  String.join (((s.data.map utf8Bytes).flatten).map encodeByte)

/-- True on a character the simple-host form admits in the authority:
lowercase ASCII letters, digits, period, hyphen. -/
def validAuthorityChar (c : Char) : Bool :=
  c.isLower || c.isDigit || c == Char.ofNat 46 || c == Char.ofNat 45

/-- Nonempty all-admissible authority remainder of a host string. -/
def validAuthorityTail (cs : List Char) : Bool :=
  !cs.isEmpty && cs.all validAuthorityChar

/-- Hosts in the normal form scheme://authority with a nonempty, already
normalized authority. For these the WHATWG parser behind Url::parse
accepts host ++ /browse-movies and serializes it back unchanged, which is
the modelling assumption for the url crate collaborator; unparsable host
strings take the error branch of create_url. -/
def validHost (host : String) : Bool :=
  (List.isPrefixOf "https://".data host.data && validAuthorityTail (host.data.drop 8))
    || (List.isPrefixOf "http://".data host.data && validAuthorityTail (host.data.drop 7))

/-- Yts::create_url from src/client/default.rs: parse host ++
/browse-movies as a URL (failing with the typed URL parse error carrying
the host), append the trimmed keyword through the query-pair serializer,
then append the five enum tokens and the page number in the fixed order
of the format string. -/
def Yts.create_url (host movie_name : String) (filter : Filter) : Outcome String :=
  if validHost host = true then
    .ok (host ++ "/browse-movies?keyword=" ++ formUrlencode (strTrim movie_name)
      ++ "&quality=" ++ filter.quality_to_str
      ++ "&genre=" ++ filter.genre_to_str
      ++ "&rating=" ++ filter.rating_to_str
      ++ "&year=" ++ filter.year_to_str
      ++ "&order_by=" ++ filter.order_by_to_str
      ++ "&page=" ++ toString filter.page)
  else .err (.ParseError host)

/-- Ampersand-joined name=value rendering of a query parameter list. -/
def queryString : List (String × String) → String
  | [] => ""
  | [p] => p.1 ++ "=" ++ p.2
  | p :: rest => p.1 ++ "=" ++ p.2 ++ "&" ++ queryString rest

/-- Definition following the words of the specification, section 4.2: a
URL with path /browse-movies and the query parameters keyword (trimmed
and encoded by a standard query-string encoder), quality, genre, rating,
year, order_by (each via the enum token mapping) and page, in that fixed
order. -/
def specSearchUrl (host movie_name : String) (filter : Filter) : String :=
  host ++ "/browse-movies?" ++ queryString
    [("keyword", formUrlencode (strTrim movie_name)),
     ("quality", filter.quality_to_str),
     ("genre", filter.genre_to_str),
     ("rating", filter.rating_to_str),
     ("year", filter.year_to_str),
     ("order_by", filter.order_by_to_str),
     ("page", toString filter.page)]

/-- Search-results fixture: one well-formed row except that the
detail-link anchor is absent. -/
def c1doc : SearchDoc :=
  ⟨some "1", some [⟨none, some "/i.jpg", ["8.5", "Crime", "The Godfather", "1972"]⟩]⟩

/-- Search-results fixture with one well-formed row whose tokens are
rating 8.5, genres Crime and Drama, title The Godfather, year 1972,
together with the View Details label the extractor drops. -/
def c2doc : SearchDoc :=
  ⟨some "1", some [⟨some "/m1", some "/i1.jpg",
    ["8.5", "Crime", "Drama", "The Godfather", "1972", "View Details"]⟩]⟩

/-- The response the extractor actually produces on the fixture above:
the rating token is sliced to its first two bytes before parsing, so the
stored rating is eight, not eight and a half. -/
def c2okResponse : Response :=
  { page := ⟨1, 1, 1⟩,
    movies := [{ name := "The Godfather", year := 1972, rating := 8,
                 genre := [.Crime, .Drama], image := "https://h/i1.jpg",
                 link := "https://h/m1" }] }

/-- The response the specification sentence expects on the fixture above,
with rating eight and a half. -/
def c2claimedResponse : Response :=
  { page := ⟨1, 1, 1⟩,
    movies := [{ name := "The Godfather", year := 1972, rating := mkRat 17 2,
                 genre := [.Crime, .Drama], image := "https://h/i1.jpg",
                 link := "https://h/m1" }] }

/-- A row whose genre token SciFi is outside the closed vocabulary (the
table key is Sci-Fi). -/
def c3row : Row :=
  ⟨some "/m", some "/i", ["8.5", "SciFi", "The Godfather", "1972"]⟩

/-- Search-results fixture built from the row with the unknown genre
label. -/
def c3doc : SearchDoc := ⟨none, some [c3row]⟩

/-- Detail-page fixture with one movie-info anchor but empty tech-spec
info blocks and quality labels: the positional zip is out of range at
index zero. -/
def c9doc : TorrentDoc := ⟨some ⟨[], []⟩, some [some "/t1"]⟩

/-- Search-results fixture whose only row has the single one-byte token
8, so the two-byte rating slice is out of range. -/
def c10docA : SearchDoc := ⟨none, some [⟨some "/m", some "/i", ["8"]⟩]⟩

/-- Search-results fixture whose only row has exactly two tokens, so the
genre slice range 1 .. 0 is inverted. -/
def c10docB : SearchDoc := ⟨none, some [⟨some "/m", some "/i", ["8.", "1972"]⟩]⟩

theorem Outcome.bind_eq_ok {α β : Type} {x : Outcome α} {f : α → Outcome β} {b : β}
    (h : Outcome.bind x f = .ok b) : ∃ a, x = .ok a ∧ f a = .ok b := by
  cases x with
  | ok a => exact ⟨a, rfl, h⟩
  | err e => exact absurd h (by simp [Outcome.bind])
  | fatal m => exact absurd h (by simp [Outcome.bind])

theorem str_append_assoc (a b c : String) : a ++ b ++ c = a ++ (b ++ c) := by
  cases a with
  | mk l =>
    cases b with
    | mk m =>
      cases c with
      | mk n => exact congrArg String.mk (List.append_assoc l m n)

theorem pageOf_eq (current total : Nat) :
    (Page.create current total).of = if total ≤ 20 then 1 else (total + 19) / 20 := by
  obtain ⟨s, hs⟩ : ∃ s, s = total + 19 := ⟨_, rfl⟩
  show (if total > 20 then total / 20 + (if total % 20 > 0 then 1 else 0) else 1)
      = if total ≤ 20 then 1 else (total + 19) / 20
  rw [← hs]
  rcases Nat.lt_or_ge 20 total with h | h
  · rw [if_pos h, if_neg (show ¬ total ≤ 20 by omega)]
    rcases Nat.eq_zero_or_pos (total % 20) with h2 | h2
    · rw [if_neg (show ¬ total % 20 > 0 by omega)]
      omega
    · rw [if_pos h2]
      omega
  · rw [if_neg (show ¬ total > 20 by omega), if_pos (show total ≤ 20 by omega)]

theorem genresOf_not_ok {t : String} {l : List String} (hm : t ∈ l)
    (hb : Genre.fromStr? t = none) : (genresOf l).isOk = false := by
  induction l with
  | nil => cases hm
  | cons a l ih =>
    rcases List.mem_cons.mp hm with rfl | hm2
    · simp [genresOf, hb, Outcome.isOk]
    · cases ha : Genre.fromStr? a with
      | none => simp [genresOf, ha, Outcome.isOk]
      | some g =>
        have ihh := ih hm2
        cases hg : genresOf l with
        | ok gs => rw [hg] at ihh; simp [Outcome.isOk] at ihh
        | err e => simp [genresOf, ha, hg, Outcome.isOk]
        | fatal m => simp [genresOf, ha, hg, Outcome.isOk]

theorem parseRow_not_ok {host : String} {r : Row} {t : String}
    (hm : t ∈ genreRegion (rowInfo r)) (hb : Genre.fromStr? t = none) :
    (parseRow host r).isOk = false := by
  cases hpr : parseRow host r with
  | ok m =>
    exfalso
    unfold parseRow movieFromInfo at hpr
    obtain ⟨rating, h1, hpr⟩ := Outcome.bind_eq_ok hpr
    obtain ⟨year, h2, hpr⟩ := Outcome.bind_eq_ok hpr
    obtain ⟨name, h3, hpr⟩ := Outcome.bind_eq_ok hpr
    obtain ⟨gs, h4, _⟩ := Outcome.bind_eq_ok hpr
    unfold genresStep at h4
    split at h4
    · exact absurd h4 (by simp)
    · have hno := genresOf_not_ok hm hb
      rw [h4] at hno
      simp [Outcome.isOk] at hno
  | err e => simp [Outcome.isOk]
  | fatal m => simp [Outcome.isOk]

theorem parseRows_not_ok {host : String} {r : Row} {rs : List Row} (hm : r ∈ rs)
    (hr : (parseRow host r).isOk = false) : (parseRows host rs).isOk = false := by
  induction rs with
  | nil => cases hm
  | cons a rs ih =>
    rcases List.mem_cons.mp hm with rfl | hm2
    · cases ha : parseRow host r with
      | ok m => rw [ha] at hr; simp [Outcome.isOk] at hr
      | err e => simp [parseRows, ha, Outcome.isOk]
      | fatal m => simp [parseRows, ha, Outcome.isOk]
    · cases ha : parseRow host a with
      | ok m =>
        have ihh := ih hm2
        cases hg : parseRows host rs with
        | ok ms => rw [hg] at ihh; simp [Outcome.isOk] at ihh
        | err e => simp [parseRows, ha, hg, Outcome.isOk]
        | fatal m2 => simp [parseRows, ha, hg, Outcome.isOk]
      | err e => simp [parseRows, ha, Outcome.isOk]
      | fatal m2 => simp [parseRows, ha, Outcome.isOk]

theorem torrentLoop_ne_err {host : String} {data quals : List (List String)} :
    ∀ (anchors : List (Option String)) (i : Nat) (e : Error),
    torrentLoop host data quals anchors i ≠ .err e := by
  intro anchors
  induction anchors with
  | nil => intro i e h; exact absurd h (by simp [torrentLoop])
  | cons a rest ih =>
    intro i e h
    cases hd : data[i]? with
    | none => simp [torrentLoop, hd] at h
    | some d =>
      cases hq : quals[i]? with
      | none => simp [torrentLoop, hd, hq] at h
      | some q =>
        cases hq0 : q[0]? with
        | none => simp [torrentLoop, hd, hq, hq0] at h
        | some q0 =>
          cases hd0 : d[0]? with
          | none => simp [torrentLoop, hd, hq, hq0, hd0] at h
          | some d0 =>
            cases hd2 : d[2]? with
            | none => simp [torrentLoop, hd, hq, hq0, hd0, hd2] at h
            | some d2 =>
              cases hd3 : d[3]? with
              | none => simp [torrentLoop, hd, hq, hq0, hd0, hd2, hd3] at h
              | some d3 =>
                cases hd4 : d[4]? with
                | none => simp [torrentLoop, hd, hq, hq0, hd0, hd2, hd3, hd4] at h
                | some d4 =>
                  cases hr : torrentLoop host data quals rest (i + 1) with
                  | ok ts => simp [torrentLoop, hd, hq, hq0, hd0, hd2, hd3, hd4, hr] at h
                  | err e2 => exact absurd hr (ih (i + 1) e2)
                  | fatal m => simp [torrentLoop, hd, hq, hq0, hd0, hd2, hd3, hd4, hr] at h

theorem torrentLoop_ok_bounds {host : String} {data quals : List (List String)} :
    ∀ (anchors : List (Option String)) (i : Nat) (ts : List Torrent),
    torrentLoop host data quals anchors i = .ok ts →
    ∀ j, j < anchors.length →
      (∃ d, data[i + j]? = some d ∧ 5 ≤ d.length) ∧
      (∃ q, quals[i + j]? = some q ∧ 1 ≤ q.length) := by
  intro anchors
  induction anchors with
  | nil => intro i ts h j hj; exact absurd hj (by simp)
  | cons a rest ih =>
    intro i ts h j hj
    cases hd : data[i]? with
    | none => simp [torrentLoop, hd] at h
    | some d =>
      cases hq : quals[i]? with
      | none => simp [torrentLoop, hd, hq] at h
      | some q =>
        cases hq0 : q[0]? with
        | none => simp [torrentLoop, hd, hq, hq0] at h
        | some q0 =>
          cases hd0 : d[0]? with
          | none => simp [torrentLoop, hd, hq, hq0, hd0] at h
          | some d0 =>
            cases hd2 : d[2]? with
            | none => simp [torrentLoop, hd, hq, hq0, hd0, hd2] at h
            | some d2 =>
              cases hd3 : d[3]? with
              | none => simp [torrentLoop, hd, hq, hq0, hd0, hd2, hd3] at h
              | some d3 =>
                cases hd4 : d[4]? with
                | none => simp [torrentLoop, hd, hq, hq0, hd0, hd2, hd3, hd4] at h
                | some d4 =>
                  cases hr : torrentLoop host data quals rest (i + 1) with
                  | err e2 => simp [torrentLoop, hd, hq, hq0, hd0, hd2, hd3, hd4, hr] at h
                  | fatal m => simp [torrentLoop, hd, hq, hq0, hd0, hd2, hd3, hd4, hr] at h
                  | ok ts2 =>
                    cases j with
                    | zero =>
                      constructor
                      · refine ⟨d, by simpa using hd, ?_⟩
                        by_contra hlen
                        rw [List.getElem?_eq_none (by omega)] at hd4
                        exact absurd hd4 (by simp)
                      · refine ⟨q, by simpa using hq, ?_⟩
                        by_contra hlen
                        rw [List.getElem?_eq_none (by omega)] at hq0
                        exact absurd hq0 (by simp)
                    | succ j2 =>
                      have hj2 : j2 < rest.length := by simpa using hj
                      have hstep := ih (i + 1) ts2 hr j2 hj2
                      have harith : i + 1 + j2 = i + (j2 + 1) := by omega
                      rw [harith] at hstep
                      exact hstep

/-- Claim C1, counterexample: on a search-results page whose single row
has no detail-link anchor but is otherwise well formed, Response::create
does not fail at all — it returns a complete Response whose movie link is
the bare host — refuting both the claimed failure with a detail-link
error kind and the claimed absence of a Response. -/
theorem c1_counterexample :
    Response.create "https://h" c1doc 1
      = .ok { page := ⟨1, 1, 1⟩,
              movies := [{ name := "The Godfather", year := 1972, rating := 8,
                           genre := [.Crime], image := "https://h/i.jpg",
                           link := "https://h" }] } := by decide

/-- Claim C1, amended: a result row without a detail-link anchor is not
an error (no detail-link error kind exists in the Error type); the
missing href is treated exactly like an empty href string, so row parsing
proceeds and the stored link is the bare host. -/
theorem c1_missing_link_not_error :
    ∀ (host : String) (imgSrc : Option String) (texts : List String),
    parseRow host ⟨none, imgSrc, texts⟩ = parseRow host ⟨some "", imgSrc, texts⟩ := by
  intro host imgSrc texts
  rfl

/-- Claim C2, counterexample: on the fixture row with tokens 8.5, Crime,
Drama, The Godfather, 1972, Response::create yields the response whose
single movie has rating 8 — not the response with rating 8.5 the claim
expects — because the rating token is sliced to its first two bytes
before parsing. -/
theorem c2_counterexample :
    Response.create "https://h" c2doc 1 = .ok c2okResponse ∧
    Response.create "https://h" c2doc 1 ≠ .ok c2claimedResponse := by decide

/-- Claim C2, amended: on the fixture row, Response::create yields
exactly one Movie with rating 8.0 (the first two bytes of the rating
token, namely 8 and the decimal point, parsed as a float), genre list
Crime then Drama, name The Godfather, and year 1972. -/
theorem c2_fixture_extraction :
    Response.create "https://h" c2doc 1 = .ok c2okResponse := by decide

/-- Claim C3, counterexample: a row with the out-of-vocabulary genre
token SciFi makes the listing parse abort through the genre-conversion
panic — not through a typed failure result. -/
theorem c3_counterexample :
    Response.create "https://h" c3doc 1 = .fatal "Invalid genre" := by decide

/-- Claim C3, amended: for every search-results page containing a row
with a genre token (strictly between the first and the last two tokens)
outside the closed genre vocabulary, the whole listing parse fails — no
Ok Response is produced and the label is never silently dropped — though
the failure is a process-aborting panic from the genre conversion rather
than a typed failure result when the row is otherwise well formed. -/
theorem c3_unknown_genre_never_ok :
    ∀ (host : String) (doc : SearchDoc) (page : Nat) (rs : List Row) (r : Row) (t : String),
    doc.rows = some rs → r ∈ rs → t ∈ genreRegion (rowInfo r) → Genre.fromStr? t = none →
    (Response.create host doc page).isOk = false := by
  intro host doc page rs r t hrows hm hreg hb
  have hrow : (parseRow host r).isOk = false := parseRow_not_ok hreg hb
  have hlist := parseRows_not_ok hm hrow
  cases hg : parseRows host rs with
  | ok ms => rw [hg] at hlist; simp [Outcome.isOk] at hlist
  | err e => simp [Response.create, hrows, hg, Outcome.isOk]
  | fatal m => simp [Response.create, hrows, hg, Outcome.isOk]

/-- Claim C3, witness: the amended theorem applied to the concrete
fixture with the unknown label SciFi. -/
theorem c3_unknown_genre_never_ok_witness :
    (Response.create "https://h" c3doc 1).isOk = false :=
  c3_unknown_genre_never_ok "https://h" c3doc 1 [c3row] c3row "SciFi"
    rfl (by decide) (by decide) (by decide)

/-- Claim C4: every Quality value whose token is recognized by the
decoder round-trips to itself; the All token falls in the documented
lossy fallback and decodes to ThreeD, as does the 3D token and any
unrecognized string such as unknown-quality — never a failure. -/
theorem c4_quality_roundtrip :
    Quality.fromStr (Quality.toStr .P720) = .P720 ∧
    Quality.fromStr (Quality.toStr .P1080) = .P1080 ∧
    Quality.fromStr (Quality.toStr .P2160) = .P2160 ∧
    Quality.fromStr (Quality.toStr .ThreeD) = .ThreeD ∧
    Quality.fromStr (Quality.toStr .All) = .ThreeD ∧
    Quality.fromStr "3D" = .ThreeD ∧
    Quality.fromStr "unknown-quality" = .ThreeD := by decide

/-- Claim C5: for every current page and total count, Page::create sets
the total page count to 1 when total is at most 20 and to the ceiling of
total over 20 otherwise; in particular totals 0, 20, 21, 40, 41 give 1,
1, 2, 2, 3. -/
theorem c5_page_of :
    (∀ (current total : Nat),
      (Page.create current total).of = if total ≤ 20 then 1 else (total + 19) / 20) ∧
    (Page.create 1 0).of = 1 ∧ (Page.create 1 20).of = 1 ∧ (Page.create 1 21).of = 2 ∧
    (Page.create 1 40).of = 2 ∧ (Page.create 1 41).of = 3 :=
  ⟨pageOf_eq, by decide, by decide, by decide, by decide, by decide⟩

/-- Claim C6: for every host the URL parser accepts, every keyword and
every Filter, create_url produces exactly the URL of the specification:
path /browse-movies and the query parameters keyword (trimmed and passed
through the standard form-urlencoded query encoder), quality, genre,
rating, year, order_by and page in that fixed order; and the encoder
percent-escapes reserved characters rather than only replacing spaces. -/
theorem c6_create_url_spec :
    (∀ (host movie_name : String) (filter : Filter), validHost host = true →
      Yts.create_url host movie_name filter = .ok (specSearchUrl host movie_name filter)) ∧
    formUrlencode "a&b c" = "a%26b+c" := by
  refine ⟨?_, by decide⟩
  intro host movie_name filter h
  unfold Yts.create_url specSearchUrl
  rw [if_pos h]
  simp only [queryString, str_append_assoc]
  rfl

/-- Claim C6, witness: the theorem applied at a concrete host, an
untrimmed keyword and the default filter. -/
theorem c6_create_url_spec_witness :
    Yts.create_url "https://example.com" " the godfather " Filters.default.build
      = .ok (specSearchUrl "https://example.com" " the godfather " Filters.default.build) :=
  c6_create_url_spec.1 "https://example.com" " the godfather " Filters.default.build (by decide)

/-- Claim C7: the Filter built from the default builder with no setters
serializes to quality all, genre all, rating 0, year 0, order_by latest,
page 1 — shown both through the field token mappings and through the full
search URL it produces. -/
theorem c7_default_filter_serialization :
    Filters.default.build.quality_to_str = "all" ∧
    Filters.default.build.genre_to_str = "all" ∧
    Filters.default.build.rating_to_str = "0" ∧
    Filters.default.build.year_to_str = "0" ∧
    Filters.default.build.order_by_to_str = "latest" ∧
    Filters.default.build.page = 1 ∧
    Yts.create_url "https://en.yts-official.mx" "inception" Filters.default.build
      = .ok ("https://en.yts-official.mx/browse-movies?keyword=inception" ++
             "&quality=all&genre=all&rating=0&year=0&order_by=latest&page=1") := by decide

/-- Claim C8: for every host, a detail page without a tech-specs
section, or without the movie-info paragraph, or with an empty anchor
list, makes Torrent::create return Ok with an empty torrent list, never
an error. -/
theorem c8_torrents_empty_ok :
    ∀ (host : String) (mi : Option (List (Option String))) (ts : TechSpecs),
    Torrent.create host ⟨none, mi⟩ = .ok [] ∧
    Torrent.create host ⟨some ts, none⟩ = .ok [] ∧
    Torrent.create host ⟨some ts, some []⟩ = .ok [] := by
  intro host mi ts
  exact ⟨rfl, rfl, rfl⟩

/-- Claim C9, counterexample: a detail page with one movie-info anchor
but no tech-spec info blocks makes Torrent::create abort through an
index-out-of-bounds panic — not a typed failure result. -/
theorem c9_counterexample :
    Torrent.create "https://h" c9doc = .fatal "index out of bounds" := by decide

/-- Claim C9, amended: for every detail page where the positional layout
assumption is violated — the movie-info anchors outnumber the tech-spec
info blocks or the quality labels, or a filtered info block used by some
anchor has fewer than five tokens — torrent extraction aborts with a
process-ending panic for that page, rather than a typed failure
result. -/
theorem c9_layout_violation_fatal :
    ∀ (host : String) (doc : TorrentDoc) (ts : TechSpecs) (anchors : List (Option String)),
    doc.techSpecs = some ts → doc.movieInfoAnchors = some anchors →
    (ts.data.length < anchors.length ∨ ts.qualities.length < anchors.length ∨
      ∃ j d, j < anchors.length ∧ (filteredData ts)[j]? = some d ∧ d.length < 5) →
    (Torrent.create host doc).isFatal = true := by
  intro host doc ts anchors h1 h2 hviol
  have hfl : (filteredData ts).length = ts.data.length := by simp [filteredData]
  simp only [Torrent.create, h1, h2]
  cases hr : torrentLoop host (filteredData ts) ts.qualities anchors 0 with
  | ok ts2 =>
    exfalso
    have hb := torrentLoop_ok_bounds anchors 0 ts2 hr
    rcases hviol with hv | hv | ⟨j, d, hj, hd, hlen⟩
    · obtain ⟨⟨d, hd, _⟩, _⟩ := hb ts.data.length hv
      rw [List.getElem?_eq_none (by omega)] at hd
      exact absurd hd (by simp)
    · obtain ⟨_, ⟨q, hq, _⟩⟩ := hb ts.qualities.length hv
      rw [List.getElem?_eq_none (by omega)] at hq
      exact absurd hq (by simp)
    · obtain ⟨⟨d2, hd2, hlen2⟩, _⟩ := hb j hj
      rw [Nat.zero_add, hd] at hd2
      cases hd2
      omega
  | err e => exact absurd hr (torrentLoop_ne_err anchors 0 e)
  | fatal m => rfl

/-- Claim C9, witness: the amended theorem applied to the concrete
fixture whose anchor count exceeds its info-block count. -/
theorem c9_layout_violation_fatal_witness :
    (Torrent.create "https://h" c9doc).isFatal = true :=
  c9_layout_violation_fatal "https://h" c9doc ⟨[], []⟩ [some "/t1"]
    rfl rfl (Or.inl (by decide))

/-- Claim C10: there are HTML inputs on which Response::create panics
instead of returning an Err: a row whose first kept token is the single
byte 8 panics in the two-byte rating slice, and a row with exactly the
two tokens 8. and 1972 panics on the inverted genre slice range. -/
theorem c10_create_panics :
    Response.create "https://h" c10docA 1 = .fatal "byte index 2 is out of bounds" ∧
    Response.create "https://h" c10docB 1 = .fatal "slice index starts at 1 but ends at 0" := by
  decide

end YtsMovies
